import Mathlib

/-!
Verification development for the BTU Task Schedule controller
(`btu/btu_core/doctype/btu_task_schedule/btu_task_schedule.py`).

The Python document class is embedded as a plain record `TaskSchedule`;
document hooks (`before_validate`, `validate`, `before_save`, `on_trash`)
become pure functions over that record.  External collaborators are
parameters:

* the scheduler daemon client calls (`SchedulerAPI.reload_task_schedule`,
  `SchedulerAPI.cancel_task_schedule`) are abstracted by a `CallOutcome`
  value: either the call returned a textual response (possibly absent or
  empty, which Python treats as falsy) or the call itself raised;
* `validate_cron_string` lives in `btu/__init__.py` (outside the embedded
  file) and is modelled from the spec as a cron-grammar validity predicate
  `validCron : String → Bool` that fails when the string is invalid;
* `cron_descriptor.get_description`, the current UTC offset, the current
  year, `zlib.decompress` and `ast.literal_eval` are likewise parameters.

Python truthiness is preserved: `not x` on an optional int is true for
`none` and `some 0`; on an optional string it is true for `none` and
`some ""`.  Raised exceptions are `Except.error` carrying the message.
-/

namespace BTU

/-- The fields of a BTU Task Schedule document used by the embedded code.
Optional fields model Python `None`; `hour` is stored as a string in the
source (it is checked with `str.isdigit` and converted with `int(...)`),
while `minute` and `day_of_month` are integers. -/
structure TaskSchedule where
  name : String
  task : String
  task_description : Option String := none
  schedule_description : Option String := none
  run_frequency : String
  day_of_week : Option String := none
  day_of_month : Option Int := none
  month : Option String := none
  hour : Option String := none
  minute : Option Int := none
  cron_string : Option String := none
  enabled : Bool := false
  redis_job_id : String := ""
  argument_overrides : Option String := none
  deriving Repr, DecidableEq

/-- Outcome of one synchronous call to the scheduler daemon client:
`resp r` means the call returned (Python falsy responses are `none` or
`some ""`), `raised e` means the call itself raised an exception. -/
inductive CallOutcome where
  | resp : Option String → CallOutcome
  | raised : String → CallOutcome
  deriving Repr, DecidableEq

/-- Which remote daemon operations a save attempted, in order. -/
inductive RemoteCall where
  | submit : RemoteCall
  | cancel : RemoteCall
  deriving Repr, DecidableEq

/-- Python `str(x)` on an optional string: `None` renders as `"None"`. -/
def pyStrOpt : Option String → String
  | none => "None"
  | some s => s

/-- Digits-to-number accumulation, the semantics of Python `int` on an
all-digit character sequence. -/
def pyDigitsToNat (cs : List Char) : Nat :=
  cs.foldl (fun a c => a * 10 + (c.toNat - 48)) 0

/-- Python `int(s)` on the strings this code feeds it: an optional minus
sign followed by at least one digit; anything else raises `ValueError`. -/
def pyInt? (s : String) : Option Int :=
  match s.data with
  | [] => none
  | '-' :: cs =>
    if cs ≠ [] && cs.all Char.isDigit then some (-(pyDigitsToNat cs : Int))
    else none
  | cs =>
    if cs.all Char.isDigit then some (pyDigitsToNat cs : Int)
    else none

/-- Python `s.startswith(p)`, over the character lists. -/
def strStartsWith (s p : String) : Bool :=
  p.data.isPrefixOf s.data

/-- Modelled from the spec: `validate_cron_string` (defined in
`btu/__init__.py`, not part of the embedded file) checks a candidate
5-field cron expression against cron grammar via an external validator and
fails when the string is invalid.  The grammar itself is abstracted as the
predicate `validCron`. -/
def validate_cron_string (validCron : String → Bool) (s : String) :
    Except String Unit :=
  if validCron s then .ok () else .error "Invalid cron string"

/-- `check_minutes` from the source: raises unless the minute is truthy
(Python `not minute` is true for `None` and for `0`) and within `0 ≤ m < 60`. -/
def check_minutes (minute : Option Int) : Except String Unit :=
  match minute with
  | none => .error "Minute value must be between 0 and 59"
  | some m =>
    if m == 0 then .error "Minute value must be between 0 and 59"
    else if !(0 ≤ m && m < 60) then .error "Minute value must be between 0 and 59"
    else .ok ()

/-- `check_hours` from the source: the hour is a string; it must be truthy,
all digits, and its integer value below 24. -/
def check_hours (hour : Option String) : Except String Unit :=
  match hour with
  | none => .error "Hour value must be between 0 and 23"
  | some h =>
    if h == "" then .error "Hour value must be between 0 and 23"
    else if !(h.data.all Char.isDigit) then .error "Hour value must be between 0 and 23"
    else
      match pyInt? h with
      | none => .error "Hour value must be between 0 and 23"
      | some n =>
        if 0 ≤ n && n < 24 then .ok ()
        else .error "Hour value must be between 0 and 23"

/-- `check_day_of_week` from the source: the weekday name must be truthy. -/
def check_day_of_week (day_of_week : Option String) : Except String Unit :=
  match day_of_week with
  | none => .error "Please select a day of the week"
  | some d =>
    if d == "" then .error "Please select a day of the week"
    else .ok ()

/-- `calendar.month_abbr` as a list: index 0 is the empty string. -/
def month_abbr : List String :=
  ["", "Jan", "Feb", "Mar", "Apr", "May", "Jun",
   "Jul", "Aug", "Sep", "Oct", "Nov", "Dec"]

/-- The month-name-to-number dictionary built in `check_day_of_month`
(`{value: key for key, value in enumerate(calendar.month_abbr)}`),
as a lookup by abbreviation. -/
def month_num (m : String) : Option Nat :=
  month_abbr.indexOf? m

/-- Gregorian leap-year test, as used by `calendar.monthrange`. -/
def isLeapYear (y : Nat) : Bool :=
  (y % 4 == 0 && y % 100 != 0) || (y % 400 == 0)

/-- `calendar.monthrange(year, m)[1]`: the number of days of month `m` in
`year`; raises for a month number outside `1..12`. -/
def monthrange_days (year m : Nat) : Except String Nat :=
  if m == 2 then .ok (if isLeapYear year then 29 else 28)
  else if m == 1 || m == 3 || m == 5 || m == 7 || m == 8 || m == 10 || m == 12 then .ok 31
  else if m == 4 || m == 6 || m == 9 || m == 11 then .ok 30
  else .error "bad month number"

/-- Python `str.title()` for a single word, as applied to month names. -/
def pyTitle (s : String) : String :=
  match s.data with
  | [] => ""
  | c :: cs => String.mk (c.toUpper :: cs.map Char.toLower)

/-- `check_day_of_month` from the source.  `year` stands for
`datetime.now().year` (the current calendar year).  Monthly requires a
truthy day; Yearly requires truthy day and month and checks the day
against the last day of that month in the current year. -/
def check_day_of_month (year : Nat) (run_frequency : String)
    (day : Option Int) (month : Option String) : Except String Unit :=
  if run_frequency == "Monthly" && (day.getD 0 == 0) then
    .error "Please select a day of the month"
  else if run_frequency == "Yearly" then
    match day, month with
    | some d, some mo =>
      if d == 0 || mo == "" then
        .error "Please select a day of the week and a month"
      else
        match month_num (pyTitle mo) with
        | none => .error "TypeError: month lookup returned None"
        | some mn =>
          match monthrange_days year mn with
          | .error e => .error e
          | .ok last =>
            if d > (last : Int) then
              .error ("Day value for " ++ mo ++ " must be between 1 and " ++ toString last)
            else .ok ()
    | _, _ => .error "Please select a day of the week and a month"
  else .ok ()

/-- `schedule_to_cron_string` from the source.  `validCron` abstracts the
external cron-grammar validator, `utc_diff` the value of
`get_utc_time_diff()` (the signed local-to-UTC hour difference computed
from the current system time).  For Cron Style the stored string is passed
through unchanged; otherwise the five fields are rendered in cron order
(minute, hour, day-of-month, month, day-of-week), with the hour corrected
by `utc_diff` without any wrapping, the weekday truncated to three
characters, and the result re-validated. -/
def schedule_to_cron_string (validCron : String → Bool) (utc_diff : Int)
    (doc : TaskSchedule) : Except String (Option String) :=
  if doc.run_frequency == "Cron Style" then .ok doc.cron_string
  else
    let c0 := match doc.minute with
              | none => "*"
              | some m => toString m
    match (match doc.hour with
           | none => Except.ok "*"
           | some h =>
             match pyInt? h with
             | none => Except.error "invalid literal for int with base 10"
             | some n => Except.ok (toString (n - utc_diff))) with
    | .error e => .error e
    | .ok c1 =>
      let c2 := match doc.day_of_month with
                | none => "*"
                | some d => toString d
      let c3 := match doc.month with
                | none => "*"
                | some mo => mo
      let c4 := match doc.day_of_week with
                | none => "*"
                | some dw => String.mk (dw.data.take 3)
      let result := String.intercalate " " [c0, c1, c2, c3, c4]
      match validate_cron_string validCron result with
      | .error e => .error e
      | .ok _ => .ok (some result)

/-- `before_validate` from the source: sets the task description (fetched
from the referenced BTU Task, here the parameter `task_desc`), renders a
human-readable description of a truthy cron string via the external
`cron_descriptor` (parameter `cron_desc`), then clears the fields that are
not relevant for the schedule type — for Cron Style, Hourly and Daily only. -/
def before_validate (task_desc : String) (cron_desc : String → String)
    (doc : TaskSchedule) : TaskSchedule :=
  let d0 := { doc with task_description := some task_desc }
  let d1 := match d0.cron_string with
            | none => d0
            | some cs =>
              if cs == "" then d0
              else { d0 with schedule_description := some (cron_desc cs) }
  let d2 := if d1.run_frequency == "Cron Style" then
              { d1 with day_of_week := none, day_of_month := none,
                        month := none, hour := none, minute := none }
            else d1
  let d3 := if d2.run_frequency == "Hourly" then
              { d2 with day_of_week := none, day_of_month := none,
                        month := none, hour := none }
            else d2
  let d4 := if d3.run_frequency == "Daily" then
              { d3 with day_of_week := none, day_of_month := none,
                        month := none }
            else d3
  d4

/-- `validate` from the source: per-frequency field checks, then the cron
string is derived and stored; for Cron Style the stored string itself is
checked (Python `str(self.cron_string)`, so `None` renders as `"None"`). -/
def validate (validCron : String → Bool) (utc_diff : Int) (year : Nat)
    (doc : TaskSchedule) : Except String TaskSchedule :=
  if doc.run_frequency == "Hourly" then do
    check_minutes doc.minute
    let cs ← schedule_to_cron_string validCron utc_diff doc
    .ok { doc with cron_string := cs }
  else if doc.run_frequency == "Daily" then do
    check_hours doc.hour
    check_minutes doc.minute
    let cs ← schedule_to_cron_string validCron utc_diff doc
    .ok { doc with cron_string := cs }
  else if doc.run_frequency == "Weekly" then do
    check_day_of_week doc.day_of_week
    check_hours doc.hour
    check_minutes doc.minute
    let cs ← schedule_to_cron_string validCron utc_diff doc
    .ok { doc with cron_string := cs }
  else if doc.run_frequency == "Monthly" then do
    check_day_of_month year doc.run_frequency doc.day_of_month none
    check_hours doc.hour
    check_minutes doc.minute
    let cs ← schedule_to_cron_string validCron utc_diff doc
    .ok { doc with cron_string := cs }
  else if doc.run_frequency == "Yearly" then do
    check_day_of_month year doc.run_frequency doc.day_of_month doc.month
    check_hours doc.hour
    check_minutes doc.minute
    let cs ← schedule_to_cron_string validCron utc_diff doc
    .ok { doc with cron_string := cs }
  else if doc.run_frequency == "Cron Style" then do
    validate_cron_string validCron (pyStrOpt doc.cron_string)
    .ok doc
  else .ok doc

/-- `resubmit_task_schedule` from the source (`autosave=False` path): asks
the daemon to reload the schedule and raises if there was no (truthy)
response or the response text signals a connection failure.  The document
itself is not modified; in particular `redis_job_id` is never written here. -/
def resubmit_task_schedule (submit_outcome : CallOutcome) : Except String Unit :=
  match submit_outcome with
  | .raised e => .error e
  | .resp none =>
    .error "Error, no response from BTU Task Scheduler daemon.  Check logs in directory /etc/btu_scheduler.logs"
  | .resp (some r) =>
    if r == "" then
      .error "Error, no response from BTU Task Scheduler daemon.  Check logs in directory /etc/btu_scheduler.logs"
    else if strStartsWith r "Exception while connecting" then .error r
    else .ok ()

/-- `cancel_schedule` from the source: asks the daemon to cancel the
schedule, then clears `redis_job_id`.  The assignment follows the client
call, so a call that raises propagates before the handle is cleared. -/
def cancel_schedule (cancel_outcome : CallOutcome) (doc : TaskSchedule) :
    Except String TaskSchedule :=
  match cancel_outcome with
  | .raised e => .error e
  | .resp _ => .ok { doc with redis_job_id := "" }

/-- `on_trash` from the source: deletion always attempts remote cancellation. -/
def on_trash (cancel_outcome : CallOutcome) (doc : TaskSchedule) :
    Except String TaskSchedule :=
  cancel_schedule cancel_outcome doc

/-- Result of a `before_save` run that did not raise: the document as it
will be persisted, the remote daemon calls that were attempted, and the
exception messages surfaced to the user via `frappe.msgprint`. -/
structure SaveOutcome where
  doc : TaskSchedule
  calls : List RemoteCall
  surfaced_errors : List String
  deriving Repr, DecidableEq

/-- `before_save` from the source: rejects a pipe character in the name
before anything else; while enabled, attempts a resubmission and surfaces
(but swallows) its failure; when disabled compared with the stored
original, requests cancellation (whose exceptions are not caught). -/
def before_save (submit_outcome cancel_outcome : CallOutcome)
    (doc_orig : Option TaskSchedule) (doc : TaskSchedule) :
    Except String SaveOutcome :=
  if doc.name.data.contains '|' then
    .error "Task Schedules cannot have the pipe character (|) in their primary key name."
  else if doc.enabled then
    match resubmit_task_schedule submit_outcome with
    | .ok _ => .ok ⟨doc, [RemoteCall.submit], []⟩
    | .error e => .ok ⟨doc, [RemoteCall.submit], [e]⟩
  else
    match doc_orig with
    | none => .ok ⟨doc, [], []⟩
    | some orig =>
      if orig.enabled != doc.enabled then
        match cancel_schedule cancel_outcome doc with
        | .ok doc2 => .ok ⟨doc2, [RemoteCall.cancel], []⟩
        | .error e => .error e
      else .ok ⟨doc, [], []⟩

/-- `built_in_arguments` from the source: a falsy `argument_overrides`
(absent or empty) yields `None`; otherwise the stored text is parsed by the
external `ast.literal_eval` (parameter `literal_eval`, which may raise). -/
def built_in_arguments {α : Type} (literal_eval : String → Except String α)
    (doc : TaskSchedule) : Except String (Option α) :=
  match doc.argument_overrides with
  | none => .ok none
  | some s =>
    if s == "" then .ok none
    else (literal_eval s).map some

/-- The hash fields of the queue-backed job record consumed by
`get_last_execution_results`: `status` (a decoded string, absent when the
`hget` returned nothing so that `.decode` raised) and `exc_info`
(compressed bytes, possibly absent or empty, both falsy in Python). -/
structure JobRecord where
  status : Option String := none
  exc_info : Option (List Nat) := none
  deriving Repr, DecidableEq

/-- What `get_last_execution_results` reports to the user, one constructor
per `frappe.msgprint` outcome of the source. -/
inductive ExecReport where
  | no_info : ExecReport
  | finished_ok : ExecReport
  | no_results (status : String) : ExecReport
  | failure_payload (status : String) (data : List Nat) : ExecReport
  deriving Repr, DecidableEq

/-- `get_last_execution_results` from the source.  `store` is the Redis
connection viewed as a map from key `rq:job:<handle>` to the job record;
`decompress` abstracts `zlib.decompress`.  A missing record or missing
status field makes the `.decode` call raise, which is caught and reported
as no job information; status "finished" reports success with no payload;
any other status reports the decompressed `exc_info` payload verbatim when
one is present (non-falsy), and otherwise that no results are available yet. -/
def get_last_execution_results (decompress : List Nat → List Nat)
    (store : String → Option JobRecord) (doc : TaskSchedule) : ExecReport :=
  match store ("rq:job:" ++ doc.redis_job_id) with
  | none => .no_info
  | some jr =>
    match jr.status with
    | none => .no_info
    | some st =>
      if st == "finished" then .finished_ok
      else
        match jr.exc_info with
        | none => .no_results st
        | some bs =>
          if bs == [] then .no_results st
          else .failure_payload st (decompress bs)

/-- Modelled from the spec: the host save pipeline (frappe
`Document.save`, external to this repository) invokes the persistence
hooks in the order before-validate, validate, before-save (spec section
6) and then writes the record; a hook that raises aborts the save and the
exception propagates to the caller of `save`. -/
def save_document (task_desc : String) (cron_desc : String → String)
    (validCron : String → Bool) (utc_diff : Int) (year : Nat)
    (submit_outcome cancel_outcome : CallOutcome)
    (doc_orig : Option TaskSchedule) (doc : TaskSchedule) :
    Except String SaveOutcome := do
  let d2 ← validate validCron utc_diff year (before_validate task_desc cron_desc doc)
  before_save submit_outcome cancel_outcome doc_orig d2

/-- One enabled schedule as the bulk loop of `resubmit_all_task_schedules`
sees it: the fetched document, the description of its referenced BTU Task,
and the daemon outcomes that its resubmission request and a possible
cancellation request (issued by the disabling save) would get. -/
structure BulkItem where
  doc : TaskSchedule
  task_desc : String
  submit_outcome : CallOutcome
  cancel_outcome : CallOutcome

/-- The body of the loop of `resubmit_all_task_schedules`: validate the
document directly (no before-validate here, matching the source), then ask
the daemon to resubmit it; an exception from either step is caught, the
document's `enabled` is set to False and the document is saved through the
full host pipeline (`save_document`), with the stored record — still
enabled — as the before-save original.  An exception escaping that save is
not caught by anything in the loop body, so it is returned as an error and
aborts the whole loop.  The `Nat` counts the resubmission requests sent
for this item (0 when validation already failed). -/
def resubmit_one (cron_desc : String → String) (validCron : String → Bool)
    (utc_diff : Int) (year : Nat) (it : BulkItem) :
    Except String (TaskSchedule × Nat) :=
  match validate validCron utc_diff year it.doc with
  | .error _ =>
    match save_document it.task_desc cron_desc validCron utc_diff year
        it.submit_outcome it.cancel_outcome (some it.doc)
        { it.doc with enabled := false } with
    | .ok out => .ok (out.doc, 0)
    | .error e => .error e
  | .ok doc2 =>
    match resubmit_task_schedule it.submit_outcome with
    | .ok _ => .ok (doc2, 1)
    | .error _ =>
      match save_document it.task_desc cron_desc validCron utc_diff year
          it.submit_outcome it.cancel_outcome (some it.doc)
          { doc2 with enabled := false } with
      | .ok out => .ok (out.doc, 1)
      | .error e => .error e

/-- Result of running the bulk loop: the per-item results in order for the
items whose loop body completed, and the exception that escaped the loop,
if one did — the items after it are then never visited. -/
structure BulkRun where
  processed : List (TaskSchedule × Nat)
  aborted : Option String
  deriving Repr, DecidableEq

/-- `resubmit_all_task_schedules` from the source: the loop processes the
enabled schedules in order; an exception inside `try` is caught by the
`except` block, but an exception raised by the `doc_schedule.save()`
inside that block escapes the loop and the remaining schedules are not
processed. -/
def resubmit_all_task_schedules (cron_desc : String → String)
    (validCron : String → Bool) (utc_diff : Int) (year : Nat) :
    List BulkItem → BulkRun
  | [] => { processed := [], aborted := none }
  | it :: rest =>
    match resubmit_one cron_desc validCron utc_diff year it with
    | .error e => { processed := [], aborted := some e }
    | .ok r =>
      let run := resubmit_all_task_schedules cron_desc validCron utc_diff year rest
      { processed := r :: run.processed, aborted := run.aborted }

end BTU

namespace BTUClaims

open BTU

/-- Concrete enabled Hourly schedule with an empty remote job handle,
used to exercise the save-while-enabled path. -/
def c1doc : TaskSchedule :=
  { name := "TS-0001", task := "T1", run_frequency := "Hourly",
    minute := some 30, enabled := true, redis_job_id := "" }

/-- Concrete previously-enabled schedule holding a remote job handle. -/
def c2orig : TaskSchedule :=
  { name := "TS-0002", task := "T2", run_frequency := "Hourly",
    minute := some 30, enabled := true, redis_job_id := "J-123" }

/-- The same schedule being saved with `enabled` flipped to false. -/
def c2new : TaskSchedule := { c2orig with enabled := false }

/-- A Weekly schedule carrying stale day-of-month and month values, say
left over from a previous Monthly configuration. -/
def c4doc : TaskSchedule :=
  { name := "TS-0004", task := "T4", run_frequency := "Weekly",
    day_of_week := some "Monday", day_of_month := some 5, month := some "Jan",
    hour := some "8", minute := some 30 }

/-- A Weekly schedule with no stale day-of-month or month values. -/
def c4clean : TaskSchedule :=
  { name := "TS-0041", task := "T41", run_frequency := "Weekly",
    day_of_week := some "Monday", hour := some "8", minute := some 30 }

/-- A bulk item whose validation fails: an Hourly schedule with a falsy
minute.  Its disabling save will fail again at the validate hook. -/
def c6fail : BulkItem :=
  { doc := { name := "TS-0061", task := "T61", run_frequency := "Hourly",
             minute := some 0, enabled := true },
    task_desc := "task sixty one",
    submit_outcome := CallOutcome.resp (some "reloaded"),
    cancel_outcome := CallOutcome.resp (some "cancelled") }

/-- A bulk item that validates and resubmits successfully. -/
def c6ok : BulkItem :=
  { doc := { name := "TS-0062", task := "T62", run_frequency := "Hourly",
             minute := some 30, enabled := true },
    task_desc := "task sixty two",
    submit_outcome := CallOutcome.resp (some "reloaded"),
    cancel_outcome := CallOutcome.resp (some "cancelled") }

/-- A bulk item with a valid Hourly definition whose resubmission request
gets no response from the daemon; the cancellation request of its
disabling save does get a response. -/
def c6sub : BulkItem :=
  { doc := { name := "TS-0063", task := "T63", run_frequency := "Hourly",
             minute := some 30, enabled := true },
    task_desc := "task sixty three",
    submit_outcome := CallOutcome.resp none,
    cancel_outcome := CallOutcome.resp (some "cancelled") }

/-- The result of validating `c6sub`'s document in the loop body. -/
def c6doc2 : TaskSchedule :=
  { c6sub.doc with cron_string := some "30 * * * *" }

/-- The document produced by the before-validate and validate hooks of
`c6sub`'s disabling save. -/
def c6d3 : TaskSchedule :=
  { c6sub.doc with
    task_description := some "task sixty three",
    schedule_description := some "every hour",
    cron_string := some "30 * * * *",
    enabled := false }

/-- A schedule pointing at queue job J-7. -/
def c7doc : TaskSchedule :=
  { name := "TS-0007", task := "T7", run_frequency := "Hourly",
    minute := some 30, redis_job_id := "J-7" }

/-- A queue store with a failed job J-7 holding a compressed payload. -/
def c7store : String → Option JobRecord := fun k =>
  if k == "rq:job:J-7" then
    some { status := some "failed", exc_info := some [1, 2, 3] }
  else none

/-- A CronStyle schedule with a stored cron string. -/
def c8doc : TaskSchedule :=
  { name := "TS-0008", task := "T8", run_frequency := "Cron Style",
    cron_string := some "15 3 * * mon" }

/-- A valid Daily schedule, 08:30 local wall-clock time. -/
def c5doc : TaskSchedule :=
  { name := "TS-0005", task := "T5", run_frequency := "Daily",
    hour := some "8", minute := some 30 }

/-- C1 counterexample: a successful submission (daemon responds
"reloaded", no error surfaced) leaves the persisted record identical to
the input; in particular `redis_job_id` is still empty, refuting the
claim that the remote job handle becomes non-empty on success. -/
theorem C1_counterexample :
    BTU.before_save (CallOutcome.resp (some "reloaded")) (CallOutcome.resp none)
      none c1doc
      = Except.ok { doc := c1doc, calls := [RemoteCall.submit], surfaced_errors := [] }
    ∧ c1doc.redis_job_id = "" := by
  exact ⟨rfl, rfl⟩

/-- C1 amended: for every schedule saved while enabled (with a pipe-free
id), a submission to the daemon is attempted and the save completes with
the record unchanged — enabled stays true and `redis_job_id` is never
written by submission; a failed submission only surfaces its error. -/
theorem C1_amended (submit cancel : CallOutcome) (orig : Option TaskSchedule)
    (doc : TaskSchedule) (hen : doc.enabled = true)
    (hname : doc.name.data.contains '|' = false) :
    BTU.before_save submit cancel orig doc
      = Except.ok { doc := doc, calls := [RemoteCall.submit],
                    surfaced_errors :=
                      match BTU.resubmit_task_schedule submit with
                      | .ok _ => []
                      | .error e => [e] } := by
  unfold BTU.before_save
  rw [hname, hen]
  cases h : BTU.resubmit_task_schedule submit <;> simp [h]

/-- C1 amended, witnessed at a concrete input: daemon gives no response,
the error is surfaced, the record is persisted unchanged (still enabled). -/
theorem C1_amended_witness :
    BTU.before_save (CallOutcome.resp none) (CallOutcome.resp none) none c1doc
      = Except.ok { doc := c1doc, calls := [RemoteCall.submit],
                    surfaced_errors :=
                      ["Error, no response from BTU Task Scheduler daemon.  Check logs in directory /etc/btu_scheduler.logs"] } :=
  C1_amended (CallOutcome.resp none) (CallOutcome.resp none) none c1doc rfl (by decide)

/-- C2 counterexample: when the cancellation call to the daemon raises,
`cancel_schedule` propagates the exception before the handle assignment
runs, and `before_save` (which does not catch it) propagates it too — no
state with a cleared handle is produced; the document still carries
"J-123".  This refutes the claim for the "raised" outcome. -/
theorem C2_counterexample :
    BTU.cancel_schedule (CallOutcome.raised "ConnectionError: socket closed") c2new
      = Except.error "ConnectionError: socket closed"
    ∧ BTU.before_save (CallOutcome.resp none)
        (CallOutcome.raised "ConnectionError: socket closed") (some c2orig) c2new
      = Except.error "ConnectionError: socket closed"
    ∧ c2new.redis_job_id = "J-123" := by
  exact ⟨rfl, rfl, rfl⟩

/-- C2 amended: disabling a previously-enabled schedule clears
`redis_job_id` to the empty string whenever the cancellation call returns
a response — whatever its text, success or error alike; only a raising
call escapes before the assignment. -/
theorem C2_amended (submit : CallOutcome) (r : Option String)
    (orig doc : TaskSchedule) (hname : doc.name.data.contains '|' = false)
    (hden : doc.enabled = false) (hoen : orig.enabled = true) :
    BTU.before_save submit (CallOutcome.resp r) (some orig) doc
      = Except.ok { doc := { doc with redis_job_id := "" },
                    calls := [RemoteCall.cancel], surfaced_errors := [] } := by
  have hname2 : '|' ∉ doc.name.data := by simpa using hname
  unfold BTU.before_save
  simp [hname2, hden, hoen, BTU.cancel_schedule]

/-- C2 amended, witnessed at a concrete input: the daemon answers the
cancellation with an error text, and the handle is cleared regardless. -/
theorem C2_amended_witness :
    BTU.before_save (CallOutcome.resp none)
      (CallOutcome.resp (some "Exception while connecting to daemon"))
      (some c2orig) c2new
      = Except.ok { doc := { c2new with redis_job_id := "" },
                    calls := [RemoteCall.cancel], surfaced_errors := [] } :=
  C2_amended (CallOutcome.resp none) (some "Exception while connecting to daemon")
    c2orig c2new (by decide) rfl rfl

/-- C3: the code rejects `minute = 0` for an Hourly schedule even though
its own error message says the minute must be between 0 and 59 — the
Python guard `not minute` treats 0 as falsy.  For any non-zero valid
minute the pipeline yields the expected cron string. -/
theorem C3_code_bug :
    BTU.check_minutes (some 0) = Except.error "Minute value must be between 0 and 59"
    ∧ BTU.validate (fun _ => true) 0 2024
        (BTU.before_validate "desc" (fun _ => "every hour")
          { name := "TS-0003", task := "T3", run_frequency := "Hourly", minute := some 0 })
      = Except.error "Minute value must be between 0 and 59"
    ∧ (BTU.validate (fun _ => true) 0 2024
        (BTU.before_validate "desc" (fun _ => "every hour")
          { name := "TS-0003", task := "T3", run_frequency := "Hourly", minute := some 30 })).map
        (fun d => d.cron_string)
      = Except.ok (some "30 * * * *") := by
  exact ⟨rfl, rfl, rfl⟩

/-- C9: an identifier containing the pipe character makes `before_save`
fail immediately, for new (`doc_orig = none`) and existing records alike
and for every enabled flag value; the result does not depend on the daemon
call outcomes at all, so no remote call is attempted. -/
theorem C9_pipe_rejected (s1 c1 s2 c2 : CallOutcome)
    (orig : Option TaskSchedule) (doc : TaskSchedule)
    (hpipe : doc.name.data.contains '|' = true) :
    BTU.before_save s1 c1 orig doc
      = Except.error "Task Schedules cannot have the pipe character (|) in their primary key name."
    ∧ BTU.before_save s1 c1 orig doc = BTU.before_save s2 c2 orig doc := by
  unfold BTU.before_save
  rw [hpipe]
  simp

/-- C9 witnessed at a concrete input: a new, enabled record named "A|B"
is rejected with the pipe-character error. -/
theorem C9_witness :
    BTU.before_save (CallOutcome.resp (some "ok")) (CallOutcome.resp (some "ok"))
      none { name := "A|B", task := "T", run_frequency := "Hourly",
             minute := some 30, enabled := true }
      = Except.error "Task Schedules cannot have the pipe character (|) in their primary key name." :=
  (C9_pipe_rejected (CallOutcome.resp (some "ok")) (CallOutcome.resp (some "ok"))
    (CallOutcome.resp none) (CallOutcome.resp none) none
    { name := "A|B", task := "T", run_frequency := "Hourly",
      minute := some 30, enabled := true } (by decide)).1

/-- C10: `built_in_arguments` returns `None` without error when
`argument_overrides` is unset or empty, and otherwise returns exactly the
result of parsing the stored text with the literal evaluator. -/
theorem C10_built_in_arguments {α : Type} (literal_eval : String → Except String α)
    (doc : TaskSchedule) :
    (doc.argument_overrides = none →
      BTU.built_in_arguments literal_eval doc = Except.ok none)
    ∧ (doc.argument_overrides = some "" →
      BTU.built_in_arguments literal_eval doc = Except.ok none)
    ∧ (∀ s, doc.argument_overrides = some s → s ≠ "" →
      BTU.built_in_arguments literal_eval doc = (literal_eval s).map some) := by
  refine ⟨?_, ?_, ?_⟩
  · intro h; simp [BTU.built_in_arguments, h]
  · intro h; simp [BTU.built_in_arguments, h]
  · intro s h hne
    simp [BTU.built_in_arguments, h, hne]

/-- C10 witnessed at concrete inputs: overrides text "(1, 2)" parsed by a
length-measuring evaluator yields its parse result; an empty override
yields `None`. -/
theorem C10_witness :
    BTU.built_in_arguments (fun s => Except.ok s.length)
      { name := "TS-0010", task := "T", run_frequency := "Hourly",
        argument_overrides := some "(1, 2)" }
      = Except.ok (some 6)
    ∧ BTU.built_in_arguments (fun s => Except.ok s.length)
      { name := "TS-0010", task := "T", run_frequency := "Hourly",
        argument_overrides := some "" }
      = Except.ok none := by
  constructor
  · have h := (C10_built_in_arguments (fun s => Except.ok s.length)
      { name := "TS-0010", task := "T", run_frequency := "Hourly",
        argument_overrides := some "(1, 2)" }).2.2 "(1, 2)" rfl (by decide)
    simpa using h
  · exact (C10_built_in_arguments (fun s => Except.ok s.length)
      { name := "TS-0010", task := "T", run_frequency := "Hourly",
        argument_overrides := some "" }).2.1 rfl

/-- C7: reading the last execution results for a handle whose queue record
is present reports success with no payload when the status is "finished";
for a non-finished status it returns the decompressed payload verbatim
when one is present, and reports that no results are available yet when
the payload is absent or empty. -/
theorem C7_read_status (decompress : List Nat → List Nat)
    (store : String → Option JobRecord) (doc : TaskSchedule) (jr : JobRecord)
    (hstore : store ("rq:job:" ++ doc.redis_job_id) = some jr) :
    (jr.status = some "finished" →
      BTU.get_last_execution_results decompress store doc = ExecReport.finished_ok)
    ∧ (∀ st, jr.status = some st → st ≠ "finished" →
        ((jr.exc_info = none ∨ jr.exc_info = some []) →
          BTU.get_last_execution_results decompress store doc = ExecReport.no_results st)
        ∧ (∀ bs, jr.exc_info = some bs → bs ≠ [] →
            BTU.get_last_execution_results decompress store doc
              = ExecReport.failure_payload st (decompress bs))) := by
  refine ⟨?_, ?_⟩
  · intro hst
    simp [BTU.get_last_execution_results, hstore, hst]
  · intro st hst hne
    refine ⟨?_, ?_⟩
    · rintro (hp | hp) <;> simp [BTU.get_last_execution_results, hstore, hst, hne, hp]
    · intro bs hp hbs
      simp [BTU.get_last_execution_results, hstore, hst, hne, hp, hbs]

/-- C7 witnessed at a concrete input: job J-7 failed with compressed bytes
[1, 2, 3]; with a decompressor that doubles the list, the report carries
the decompressed payload verbatim. -/
theorem C7_witness :
    BTU.get_last_execution_results (fun l => l ++ l) c7store c7doc
      = ExecReport.failure_payload "failed" [1, 2, 3, 1, 2, 3] :=
  ((C7_read_status (fun l => l ++ l) c7store c7doc
      { status := some "failed", exc_info := some [1, 2, 3] } (by decide)).2
    "failed" rfl (by decide)).2 [1, 2, 3] rfl (by decide)

/-- C8: for a CronStyle definition the translation returns the stored cron
string unchanged (whatever the ambient UTC offset), re-translating after
storing the result back yields the same string again (idempotence), and
validation succeeds exactly when the stored string passes the cron-grammar
validator (the grammar check being modelled from the spec, see
`validate_cron_string`). -/
theorem C8_cronstyle_roundtrip (validCron : String → Bool) (utc utc2 : Int)
    (year : Nat) (doc : TaskSchedule)
    (hfreq : doc.run_frequency = "Cron Style") :
    BTU.schedule_to_cron_string validCron utc doc = Except.ok doc.cron_string
    ∧ (∀ cs, BTU.schedule_to_cron_string validCron utc doc = Except.ok cs →
        BTU.schedule_to_cron_string validCron utc2 { doc with cron_string := cs }
          = Except.ok cs)
    ∧ (validCron (BTU.pyStrOpt doc.cron_string) = true →
        BTU.validate validCron utc year doc = Except.ok doc)
    ∧ (validCron (BTU.pyStrOpt doc.cron_string) = false →
        BTU.validate validCron utc year doc = Except.error "Invalid cron string") := by
  refine ⟨?_, ?_, ?_, ?_⟩
  · simp [BTU.schedule_to_cron_string, hfreq]
  · intro cs hcs
    simp [BTU.schedule_to_cron_string, hfreq]
  · intro hv
    simp [BTU.validate, hfreq, BTU.validate_cron_string, hv, Bind.bind, Except.bind]
  · intro hv
    simp [BTU.validate, hfreq, BTU.validate_cron_string, hv, Bind.bind, Except.bind]

/-- C8 witnessed at a concrete input: a CronStyle schedule storing
"15 3 * * mon" translates to itself, re-translates to itself, and
validates under a grammar accepting it. -/
theorem C8_witness :
    BTU.schedule_to_cron_string (fun _ => true) 5 c8doc
      = Except.ok (some "15 3 * * mon")
    ∧ BTU.schedule_to_cron_string (fun _ => true) 7
        { c8doc with cron_string := some "15 3 * * mon" }
      = Except.ok (some "15 3 * * mon")
    ∧ BTU.validate (fun _ => true) 5 2024 c8doc = Except.ok c8doc := by
  have h := C8_cronstyle_roundtrip (fun _ => true) 5 7 2024 c8doc rfl
  exact ⟨h.1, h.2.1 (some "15 3 * * mon") h.1, h.2.2.1 rfl⟩

/-- For a Daily schedule, `before_validate` sets the descriptions and
clears day-of-week, day-of-month and month, leaving every other field
untouched. -/
theorem before_validate_daily (td : String) (cd : String → String)
    (doc : TaskSchedule) (h : doc.run_frequency = "Daily") :
    ∃ sd, BTU.before_validate td cd doc
      = { doc with task_description := some td, schedule_description := sd,
                   day_of_week := none, day_of_month := none, month := none } := by
  rcases hc : doc.cron_string with _ | cs
  · exact ⟨doc.schedule_description, by simp [BTU.before_validate, h, hc]⟩
  · by_cases hcs : cs = ""
    · exact ⟨doc.schedule_description, by simp [BTU.before_validate, h, hc, hcs]⟩
    · exact ⟨some (cd cs), by simp [BTU.before_validate, h, hc, hcs]⟩

/-- For a Weekly schedule, `before_validate` only sets the descriptions:
no structured field is cleared. -/
theorem before_validate_weekly (td : String) (cd : String → String)
    (doc : TaskSchedule) (h : doc.run_frequency = "Weekly") :
    ∃ sd, BTU.before_validate td cd doc
      = { doc with task_description := some td, schedule_description := sd } := by
  rcases hc : doc.cron_string with _ | cs
  · exact ⟨doc.schedule_description, by simp [BTU.before_validate, h, hc]⟩
  · by_cases hcs : cs = ""
    · exact ⟨doc.schedule_description, by simp [BTU.before_validate, h, hc, hcs]⟩
    · exact ⟨some (cd cs), by simp [BTU.before_validate, h, hc, hcs]⟩

/-- C5: for every valid Daily definition (hour string `hs` with integer
value `n`, minute `m`), the validation pass emits the cron string whose
hour field is exactly `n - utc` — the UTC correction applied without any
wrapping, so negative or ≥ 24 values are emitted as-is — and whose
day-of-month, month and day-of-week fields are all wildcards. -/
theorem C5_daily_hour_unwrapped (td : String) (cd : String → String)
    (validCron : String → Bool) (utc : Int) (year : Nat)
    (doc : TaskSchedule) (hs : String) (m n : Int)
    (hfreq : doc.run_frequency = "Daily")
    (hhour : doc.hour = some hs)
    (hchk_h : BTU.check_hours (some hs) = Except.ok ())
    (hparse : BTU.pyInt? hs = some n)
    (hmin : doc.minute = some m)
    (hchk_m : BTU.check_minutes (some m) = Except.ok ())
    (hvc : validCron (String.intercalate " "
      [toString m, toString (n - utc), "*", "*", "*"]) = true) :
    BTU.validate validCron utc year (BTU.before_validate td cd doc)
      = Except.ok { BTU.before_validate td cd doc with
                    cron_string :=
                      some (String.intercalate " "
                        [toString m, toString (n - utc), "*", "*", "*"]) } := by
  obtain ⟨sd, hbv⟩ := before_validate_daily td cd doc hfreq
  rw [hbv]
  simp [BTU.validate, hfreq, hhour, hmin, hchk_h, hchk_m,
        BTU.schedule_to_cron_string, hparse, BTU.validate_cron_string, hvc,
        Bind.bind, Except.bind]

/-- C5 witnessed at a concrete input: Daily at 08:30 local time with a UTC
offset of 10 hours emits hour field "-2" — outside the conventional cron
hour domain, demonstrating the absence of wrapping. -/
theorem C5_witness :
    BTU.validate (fun _ => true) 10 2024
      (BTU.before_validate "desc" (fun _ => "daily") c5doc)
      = Except.ok { BTU.before_validate "desc" (fun _ => "daily") c5doc with
                    cron_string := some "30 -2 * * *" } :=
  C5_daily_hour_unwrapped "desc" (fun _ => "daily") (fun _ => true) 10 2024
    c5doc "8" 30 8 rfl rfl rfl rfl rfl rfl rfl

/-- C4 counterexample: `before_validate` clears nothing for a Weekly
schedule, so stale day-of-month and month values survive the pass and are
emitted into the cron expression — here "30 8 5 Jan Mon", whose
day-of-month field is "5" and month field is "Jan" rather than the
wildcards the claim requires. -/
theorem C4_counterexample :
    (BTU.before_validate "desc" (fun _ => "weekly") c4doc).day_of_month = some 5
    ∧ (BTU.before_validate "desc" (fun _ => "weekly") c4doc).month = some "Jan"
    ∧ (BTU.validate (fun _ => true) 0 2024
        (BTU.before_validate "desc" (fun _ => "weekly") c4doc)).map
        (fun d => d.cron_string)
      = Except.ok (some "30 8 5 Jan Mon") := by
  exact ⟨rfl, rfl, rfl⟩

/-- C4 amended: the pre-validation clearing of irrelevant fields happens
only for Cron Style, Hourly and Daily; for Weekly, day-of-month, month and
day-of-week pass through `before_validate` unchanged, and consequently a
Weekly definition's emitted cron expression has wildcards in the
day-of-month and month fields exactly when those fields were already
unset. -/
theorem C4_amended (td : String) (cd : String → String)
    (validCron : String → Bool) (utc : Int) (year : Nat)
    (doc : TaskSchedule) (dw hs : String) (m n : Int)
    (hfreq : doc.run_frequency = "Weekly")
    (hdom : doc.day_of_month = none) (hmo : doc.month = none)
    (hdow : doc.day_of_week = some dw) (hdw : dw ≠ "")
    (hhour : doc.hour = some hs)
    (hchk_h : BTU.check_hours (some hs) = Except.ok ())
    (hparse : BTU.pyInt? hs = some n)
    (hmin : doc.minute = some m)
    (hchk_m : BTU.check_minutes (some m) = Except.ok ())
    (hvc : validCron (String.intercalate " "
      [toString m, toString (n - utc), "*", "*", String.mk (dw.data.take 3)]) = true) :
    (∀ doc2 : TaskSchedule, doc2.run_frequency = "Weekly" →
        (BTU.before_validate td cd doc2).day_of_month = doc2.day_of_month
        ∧ (BTU.before_validate td cd doc2).month = doc2.month
        ∧ (BTU.before_validate td cd doc2).day_of_week = doc2.day_of_week)
    ∧ BTU.validate validCron utc year (BTU.before_validate td cd doc)
        = Except.ok { BTU.before_validate td cd doc with
                      cron_string :=
                        some (String.intercalate " "
                          [toString m, toString (n - utc), "*", "*",
                           String.mk (dw.data.take 3)]) } := by
  refine ⟨?_, ?_⟩
  · intro doc2 h2
    obtain ⟨sd2, hbv2⟩ := before_validate_weekly td cd doc2 h2
    rw [hbv2]
    exact ⟨rfl, rfl, rfl⟩
  · obtain ⟨sd, hbv⟩ := before_validate_weekly td cd doc hfreq
    rw [hbv]
    simp [BTU.validate, hfreq, hdow, hdw, hhour, hmin, hdom, hmo, hchk_h, hchk_m,
          BTU.check_day_of_week, BTU.schedule_to_cron_string, hparse,
          BTU.validate_cron_string, hvc, Bind.bind, Except.bind]

/-- C4 amended, witnessed at a concrete input: a Weekly schedule with no
stale fields (Monday 08:30, UTC offset 0) emits "30 8 * * Mon" — the
day-of-month and month fields are wildcards. -/
theorem C4_amended_witness :
    BTU.validate (fun _ => true) 0 2024
      (BTU.before_validate "desc" (fun _ => "weekly") c4clean)
      = Except.ok { BTU.before_validate "desc" (fun _ => "weekly") c4clean with
                    cron_string := some "30 8 * * Mon" } :=
  (C4_amended "desc" (fun _ => "weekly") (fun _ => true) 0 2024
    c4clean "Monday" "8" 30 8 rfl rfl rfl rfl (by decide) rfl rfl rfl rfl rfl rfl).2

/-- Inversion for a successful `Except` bind. -/
theorem except_bind_ok {α β : Type} {x : Except String α} {f : α → Except String β}
    {b : β} (h : x >>= f = Except.ok b) : ∃ a, x = Except.ok a ∧ f a = Except.ok b := by
  cases x with
  | error e => exact absurd h (by simp [Bind.bind, Except.bind])
  | ok a => exact ⟨a, rfl, by simpa [Bind.bind, Except.bind] using h⟩

/-- A successful validation only rewrites `cron_string` (and for Cron Style
nothing at all); in particular the `enabled` flag is preserved. -/
theorem validate_preserves_enabled (validCron : String → Bool) (utc : Int)
    (year : Nat) (doc d2 : TaskSchedule)
    (h : BTU.validate validCron utc year doc = Except.ok d2) :
    d2.enabled = doc.enabled := by
  unfold BTU.validate at h
  repeat' split at h
  all_goals (repeat obtain ⟨_, _, h⟩ := except_bind_ok h)
  all_goals (injection h with h2; subst h2; rfl)

/-- `before_validate` only writes descriptions and clears structured
fields; it never touches the `enabled` flag. -/
theorem before_validate_preserves_enabled (td : String) (cd : String → String)
    (doc : TaskSchedule) :
    (BTU.before_validate td cd doc).enabled = doc.enabled := by
  rcases hc : doc.cron_string with _ | cs
  · simp only [BTU.before_validate, hc]
    repeat' split
    all_goals rfl
  · by_cases hcs : cs = ""
    · simp only [BTU.before_validate, hc, hcs]
      repeat' split
      all_goals rfl
    · simp only [BTU.before_validate, hc]
      repeat' split
      all_goals rfl

/-- When every loop body completes without an escaping exception, the bulk
run visits all items in order: nothing aborts, and the j-th processed
result is the j-th loop-body result. -/
theorem resubmit_all_of_all_ok (cron_desc : String → String)
    (validCron : String → Bool) (utc : Int) (year : Nat)
    (items : List BulkItem)
    (h : ∀ j (hj : j < items.length), ∃ p,
      BTU.resubmit_one cron_desc validCron utc year (items.get ⟨j, hj⟩)
        = Except.ok p) :
    (BTU.resubmit_all_task_schedules cron_desc validCron utc year items).aborted
      = none
    ∧ (BTU.resubmit_all_task_schedules cron_desc validCron utc year
        items).processed.length = items.length
    ∧ ∀ j (hj : j < items.length),
        (BTU.resubmit_all_task_schedules cron_desc validCron utc year
          items).processed.get? j
          = (BTU.resubmit_one cron_desc validCron utc year
              (items.get ⟨j, hj⟩)).toOption := by
  induction items with
  | nil =>
    refine ⟨rfl, rfl, ?_⟩
    intro j hj
    exact absurd hj (Nat.not_lt_zero j)
  | cons it rest ih =>
    obtain ⟨p0, hp0⟩ := h 0 (Nat.succ_pos rest.length)
    have hp0it : BTU.resubmit_one cron_desc validCron utc year it
        = Except.ok p0 := hp0
    have hrest : ∀ j (hj : j < rest.length), ∃ p,
        BTU.resubmit_one cron_desc validCron utc year (rest.get ⟨j, hj⟩)
          = Except.ok p := fun j hj => h (j + 1) (Nat.succ_lt_succ hj)
    obtain ⟨ha, hl, hg⟩ := ih hrest
    have hcons : BTU.resubmit_all_task_schedules cron_desc validCron utc year
        (it :: rest)
        = { processed := p0 :: (BTU.resubmit_all_task_schedules cron_desc validCron
              utc year rest).processed,
            aborted := (BTU.resubmit_all_task_schedules cron_desc validCron utc
              year rest).aborted } := by
      simp [BTU.resubmit_all_task_schedules, hp0it]
    refine ⟨?_, ?_, ?_⟩
    · rw [hcons]
      exact ha
    · rw [hcons]
      simp [hl]
    · intro j hj
      rw [hcons]
      cases j with
      | zero =>
        have hit : (it :: rest).get ⟨0, hj⟩ = it := rfl
        rw [hit, hp0it]
        rfl
      | succ j2 =>
        have hj2 : j2 < rest.length := Nat.lt_of_succ_lt_succ hj
        have hit : (it :: rest).get ⟨j2 + 1, hj⟩ = rest.get ⟨j2, hj2⟩ := rfl
        rw [hit]
        exact hg j2 hj2

/-- C6 counterexample: with two enabled schedules of which exactly the
first fails validation (minute 0), the loop aborts instead of processing
both.  The except block catches the validation error, but the disabling
save re-runs the validate hook on the still-invalid definition, which
raises the same error again, and that exception escapes the loop: the
failing schedule is not persisted with `enabled = false` (its save
aborted) and the second, valid schedule is never visited, receiving no
resubmission attempt. -/
theorem C6_counterexample :
    BTU.validate (fun _ => true) 0 2024 c6fail.doc
      = Except.error "Minute value must be between 0 and 59"
    ∧ BTU.resubmit_all_task_schedules (fun _ => "every hour") (fun _ => true) 0 2024
        [c6fail, c6ok]
      = { processed := [],
          aborted := some "Minute value must be between 0 and 59" } := by
  exact ⟨rfl, rfl⟩

/-- C6 amended: the bulk loop isolates a failure only when the disabling
save it triggers succeeds.  If among enabled schedules exactly the one at
index `i` fails — at the resubmission step, its definition still
validating — and its disabling save goes through (the re-run validation
passes, the persisted name is pipe-free, and the cancellation request
issued by the disable transition returns a response), then every item is
processed without aborting: the failing schedule is persisted with
`enabled = false` and its handle cleared, while every other schedule keeps
`enabled = true` and receives exactly one resubmission attempt.  When the
single failure is a validation failure, the save raises again and the loop
aborts, as the counterexample shows. -/
theorem C6_amended (cron_desc : String → String) (validCron : String → Bool)
    (utc : Int) (year : Nat) (items : List BulkItem) (i : Nat)
    (hi : i < items.length) (iti : BulkItem) (doc2 d3 : TaskSchedule)
    (e : String) (r : Option String)
    (hit : items.get ⟨i, hi⟩ = iti)
    (hen : ∀ j (hj : j < items.length), (items.get ⟨j, hj⟩).doc.enabled = true)
    (hval_i : BTU.validate validCron utc year iti.doc = Except.ok doc2)
    (hsub_i : BTU.resubmit_task_schedule iti.submit_outcome = Except.error e)
    (hreval : BTU.validate validCron utc year
        (BTU.before_validate iti.task_desc cron_desc { doc2 with enabled := false })
      = Except.ok d3)
    (hpipe : d3.name.data.contains '|' = false)
    (hcancel : iti.cancel_outcome = CallOutcome.resp r)
    (hok : ∀ j (hj : j < items.length), j ≠ i →
        (∃ dj, BTU.validate validCron utc year (items.get ⟨j, hj⟩).doc
          = Except.ok dj)
        ∧ BTU.resubmit_task_schedule (items.get ⟨j, hj⟩).submit_outcome
          = Except.ok ()) :
    (BTU.resubmit_all_task_schedules cron_desc validCron utc year items).aborted
      = none
    ∧ (BTU.resubmit_all_task_schedules cron_desc validCron utc year
        items).processed.length = items.length
    ∧ d3.enabled = false
    ∧ ∀ j (_hj : j < items.length),
        (j = i →
          (BTU.resubmit_all_task_schedules cron_desc validCron utc year
            items).processed.get? j
            = some (({ d3 with redis_job_id := "" } : TaskSchedule), 1))
        ∧ (j ≠ i → ∃ dj,
          (BTU.resubmit_all_task_schedules cron_desc validCron utc year
            items).processed.get? j = some ((dj : TaskSchedule), 1)
          ∧ dj.enabled = true) := by
  have hd3en : d3.enabled = false := by
    have h1 := validate_preserves_enabled validCron utc year _ d3 hreval
    rw [before_validate_preserves_enabled] at h1
    exact h1
  have horig : iti.doc.enabled = true := by
    have h1 := hen i hi
    rw [hit] at h1
    exact h1
  have hpipe2 : '|' ∉ d3.name.data := by simpa using hpipe
  have hsave : BTU.save_document iti.task_desc cron_desc validCron utc year
      iti.submit_outcome iti.cancel_outcome (some iti.doc)
      { doc2 with enabled := false }
      = Except.ok { doc := { d3 with redis_job_id := "" },
                    calls := [RemoteCall.cancel], surfaced_errors := [] } := by
    unfold BTU.save_document
    rw [hreval]
    show BTU.before_save iti.submit_outcome iti.cancel_outcome (some iti.doc) d3
      = Except.ok { doc := { d3 with redis_job_id := "" },
                    calls := [RemoteCall.cancel], surfaced_errors := [] }
    unfold BTU.before_save
    simp [hpipe2, hd3en, horig, hcancel, BTU.cancel_schedule]
  have hone_i : BTU.resubmit_one cron_desc validCron utc year iti
      = Except.ok (({ d3 with redis_job_id := "" } : TaskSchedule), 1) := by
    unfold BTU.resubmit_one
    simp only [hval_i, hsub_i, hsave]
  have hone_j : ∀ j (hj : j < items.length), j ≠ i → ∃ dj,
      BTU.resubmit_one cron_desc validCron utc year (items.get ⟨j, hj⟩)
        = Except.ok ((dj : TaskSchedule), 1) ∧ dj.enabled = true := by
    intro j hj hne
    obtain ⟨⟨dj, hdj⟩, hsubj⟩ := hok j hj hne
    have hdjen : dj.enabled = true := by
      rw [validate_preserves_enabled validCron utc year _ dj hdj]
      exact hen j hj
    refine ⟨dj, ?_, hdjen⟩
    revert hdj hsubj
    generalize items.get ⟨j, hj⟩ = x
    intro hdj hsubj
    unfold BTU.resubmit_one
    rw [hdj, hsubj]
  have hall : ∀ j (hj : j < items.length), ∃ p,
      BTU.resubmit_one cron_desc validCron utc year (items.get ⟨j, hj⟩)
        = Except.ok p := by
    intro j hj
    by_cases hji : j = i
    · subst hji
      have hit2 : items.get ⟨j, hj⟩ = iti := hit
      rw [hit2]
      exact ⟨_, hone_i⟩
    · obtain ⟨dj, h1, _⟩ := hone_j j hj hji
      exact ⟨(dj, 1), h1⟩
  obtain ⟨ha, hl, hg⟩ := resubmit_all_of_all_ok cron_desc validCron utc year items hall
  refine ⟨ha, hl, hd3en, ?_⟩
  intro j hj
  constructor
  · intro hji
    subst hji
    have h2 := hg j hj
    have hit2 : items.get ⟨j, hj⟩ = iti := hit
    rw [hit2, hone_i] at h2
    exact h2
  · intro hji
    obtain ⟨dj, h1, h2en⟩ := hone_j j hj hji
    have h2 := hg j hj
    rw [h1] at h2
    exact ⟨dj, h2, h2en⟩

/-- C6 amended, witnessed concretely: of two enabled schedules the first
has a valid definition but gets no daemon response on resubmission; its
disabling save succeeds (re-validation passes, cancellation answered), so
the run aborts nothing, persists the first schedule disabled after its one
attempt, and leaves the second enabled with exactly one attempt. -/
theorem C6_amended_witness :
    (BTU.resubmit_all_task_schedules (fun _ => "every hour") (fun _ => true) 0 2024
        [c6sub, c6ok]).aborted = none
    ∧ (BTU.resubmit_all_task_schedules (fun _ => "every hour") (fun _ => true) 0 2024
        [c6sub, c6ok]).processed.length = 2
    ∧ ((BTU.resubmit_all_task_schedules (fun _ => "every hour") (fun _ => true) 0 2024
        [c6sub, c6ok]).processed.get? 0).map (fun p => (p.1.enabled, p.2))
      = some (false, 1)
    ∧ ((BTU.resubmit_all_task_schedules (fun _ => "every hour") (fun _ => true) 0 2024
        [c6sub, c6ok]).processed.get? 1).map (fun p => (p.1.enabled, p.2))
      = some (true, 1) := by
  have h := C6_amended (fun _ => "every hour") (fun _ => true) 0 2024 [c6sub, c6ok]
    0 (Nat.succ_pos 1) c6sub c6doc2 c6d3
    "Error, no response from BTU Task Scheduler daemon.  Check logs in directory /etc/btu_scheduler.logs"
    (some "cancelled") rfl
    (by decide) rfl rfl rfl (by decide) rfl
    (by
      intro j hj hne
      have hj2 : j < 2 := by simpa using hj
      interval_cases j
      · exact absurd rfl hne
      · exact ⟨⟨_, rfl⟩, rfl⟩)
  refine ⟨h.1, h.2.1, ?_, ?_⟩
  · have h0 := (h.2.2.2 0 (by decide)).1 rfl
    rw [h0]
    decide
  · obtain ⟨dj, hdj, hdjen⟩ := (h.2.2.2 1 (by decide)).2 (by decide)
    rw [hdj]
    simp [hdjen]

end BTUClaims
